import Mathlib

/-!
Shallow embedding of the giftai RAG pipeline (Express HTTP server, BullMQ
worker, Qdrant vector store, remote chat-completion API).

External collaborators (network, filesystem, queue, vector store, PDF
parsing, the remote model) are modelled as an environment of
`Except`-valued oracles; each handler or worker body is a pure function
from its environment and input to the ordered list of external effects it
performs (`Step`) together with its result.  Informational console.log
lines are not modelled as effects; console.error lines are (`Step.logError`),
with the emoji decorations of the source messages dropped.
-/

/-- A LangChain document: the repository only ever reads `pageContent`. -/
structure Doc where
  pageContent : String
deriving DecidableEq, Repr

/-- A JavaScript error as the repository observes it: `message`, and the
optional `error.response.data` payload that axios attaches to HTTP
failures (`error.response?.data`). -/
structure JsError where
  message : String
  responseData : Option String
deriving DecidableEq, Repr

/-- One externally visible action of a handler or worker, in program order. -/
inductive Step where
  /-- axios.get of a remote file (the Cloudinary download). -/
  | httpGet (url : String)
  /-- fs.writeFileSync of the downloaded bytes. -/
  | fsWrite (path : String)
  /-- PDFLoader(...).load(). -/
  | pdfLoad (path : String)
  /-- splitter.splitDocuments, recording the resulting chunks. -/
  | split (chunks : List Doc)
  /-- new HuggingFaceTransformersEmbeddings with the given model name. -/
  | embedInit (model : String)
  /-- QdrantVectorStore.fromExistingCollection on the named collection. -/
  | qConnect (collection : String)
  /-- vectorStore.addDocuments on the named collection. -/
  | qAppend (collection : String) (chunks : List Doc)
  /-- QdrantVectorStore.fromDocuments: create the collection with the
  chunks as initial contents. -/
  | qCreate (collection : String) (chunks : List Doc)
  /-- retriever.invoke with the given query and k. -/
  | qRetrieve (collection : String) (query : String) (k : Nat)
  /-- axios.post to the chat-completion API with system and user messages. -/
  | llmCall (model : String) (system : String) (user : String)
  /-- fs.unlinkSync. -/
  | fsUnlink (path : String)
  /-- console.error. -/
  | logError (msg : String)
  /-- fileQueue.add: enqueue a job carrying the uploaded filename. -/
  | enqueue (queue : String) (jobname : String) (filename : String)
  /-- cloudinary.uploader.upload of the locally stored upload. -/
  | cloudUpload (path : String)
deriving DecidableEq, Repr

/-- The outcome of a BullMQ job as the queue sees it: BullMQ marks a job
failed (and applies its retry/backoff policy) exactly when the handler
promise rejects; a handler that returns normally yields a completed job. -/
inductive JobOutcome where
  | completed
  | failed (msg : String)
deriving DecidableEq, Repr

/-- An HTTP response body produced by one of the routes. -/
inductive RespBody where
  /-- res.json of an error object, with the optional `details` field used
  by the chat endpoint. -/
  | errorBody (error : String) (details : Option String)
  /-- The 200 body of /upload/pdf: message plus file name and location. -/
  | uploadOk (name : String) (loc : String)
  /-- The 200 body of /chat: the model answer and the retrieved chunk texts. -/
  | chatOk (answer : String) (docs : List String)
deriving DecidableEq, Repr

/-- An HTTP response: status code and JSON body. -/
structure HttpResponse where
  status : Nat
  body : RespBody
deriving DecidableEq, Repr

/-- The fixed Qdrant collection name used by every index read and write. -/
def collectionName : String := "pdf-docs"

/-- The BullMQ queue name shared by producer and worker. -/
def queueName : String := "file-upload-queue"

/-- The local embedding model name. -/
def embeddingModelName : String := "Xenova/all-MiniLM-L6-v2"

/-- The remote chat model name. -/
def chatModelName : String := "deepseek/deepseek-chat"

/-- The splitter configuration from src/server/worker.js:
new RecursiveCharacterTextSplitter with chunkSize 1000, chunkOverlap 200. -/
structure SplitterConfig where
  chunkSize : Nat
  chunkOverlap : Nat
deriving DecidableEq, Repr

/-- The configuration the worker passes to the splitter. -/
def splitterConfig : SplitterConfig := { chunkSize := 1000, chunkOverlap := 200 }

/-- Fuel-indexed sliding-window splitter; the fuel only bounds recursion
depth and is immaterial once it is at least the text length. -/
def slidingChunksAux (size overlap : Nat) : Nat → List Char → List (List Char)
  | 0, s => [s]
  | fuel + 1, s =>
    if s.length ≤ size ∨ size ≤ overlap then [s]
    else s.take size :: slidingChunksAux size overlap fuel (s.drop (size - overlap))

/-- Modelled from the spec: the repository delegates text splitting to the
external langchain RecursiveCharacterTextSplitter, whose implementation is
not part of this repository; only its configuration (chunkSize 1000,
chunkOverlap 200, see `splitterConfig`) is.  The spec describes the split
as a deterministic sliding window of the target size with the configured
overlap between consecutive chunks, order-preserving and not
sentence-aware; this definition models that description: each chunk starts
`size - overlap` characters after the previous one and holds the next
`size` characters (the final chunk may be shorter). -/
def slidingChunks (size overlap : Nat) (s : List Char) : List (List Char) :=
  slidingChunksAux size overlap s.length s

/-- The chunks the worker produces for one extracted text segment. -/
def workerChunks (s : List Char) : List (List Char) :=
  slidingChunks splitterConfig.chunkSize splitterConfig.chunkOverlap s

/-- splitter.splitDocuments: split each page-level document and
concatenate the chunks in source order. -/
def splitDocuments (docs : List Doc) : List Doc :=
  docs.flatMap fun d => (workerChunks d.pageContent.data).map fun cs => { pageContent := String.mk cs }

/-- path.basename: the final path component of a URL or path. -/
def basename (url : String) : String :=
  (url.split (· == '/')).getLastD url

/-- path.join of the /tmp directory and the basename of the URL. -/
def tempPath (url : String) : String := "/tmp/" ++ basename url

/-- Outcomes of the three Qdrant operations the worker uses. -/
structure QdrantEnv where
  fromExistingCollection : Except JsError Unit
  addDocuments : List Doc → Except JsError Unit
  fromDocuments : List Doc → Except JsError Unit

/-- The inner try/catch of the worker (src/server/worker.js lines 59-80):
connect to the existing `pdf-docs` collection and append the chunks; if
either the connect or the append throws, fall back to creating the
collection with the chunks as its initial contents.  There is no
existence check before the append attempt. -/
def upsertChunks (env : QdrantEnv) (ds : List Doc) : List Step × Except JsError Unit :=
  match env.fromExistingCollection with
  | .ok _ =>
    match env.addDocuments ds with
    | .ok _ => ([Step.qConnect collectionName, Step.qAppend collectionName ds], .ok ())
    | .error _ =>
      match env.fromDocuments ds with
      | .ok _ =>
        ([Step.qConnect collectionName, Step.qAppend collectionName ds,
          Step.qCreate collectionName ds], .ok ())
      | .error e2 =>
        ([Step.qConnect collectionName, Step.qAppend collectionName ds,
          Step.qCreate collectionName ds], .error e2)
  | .error _ =>
    match env.fromDocuments ds with
    | .ok _ => ([Step.qConnect collectionName, Step.qCreate collectionName ds], .ok ())
    | .error e2 => ([Step.qConnect collectionName, Step.qCreate collectionName ds], .error e2)

/-- Whether the append attempt (connect to the existing collection, then
addDocuments) fails: the connect throws, or the connect succeeds and the
append throws. -/
def appendAttemptFails (env : QdrantEnv) (ds : List Doc) : Bool :=
  match env.fromExistingCollection with
  | .error _ => true
  | .ok _ =>
    match env.addDocuments ds with
    | .error _ => true
    | .ok _ => false

/-- Whether a step is one of the three Qdrant operations. -/
def isQdrantStep : Step → Bool
  | .qConnect _ => true
  | .qAppend _ _ => true
  | .qCreate _ _ => true
  | _ => false

/-- External outcomes for the remote-download worker (src/server/worker.js). -/
structure RemoteEnv where
  download : String → Except JsError Unit
  load : String → Except JsError (List Doc)
  qdrant : QdrantEnv

/-- The data of a job as the remote-download worker reads it: job.data.url,
possibly absent. -/
structure RemoteJobData where
  url : Option String
deriving DecidableEq, Repr

/-- The try block of the remote-download worker handler: resolve the URL
(throwing if absent), download the PDF, write it to /tmp, extract pages,
abort with a console.error if zero pages, split, build the embedding
model, upsert, and delete the temp file. -/
def remoteBody (env : RemoteEnv) (data : RemoteJobData) : List Step × Except JsError Unit :=
  match data.url with
  | none => ([], .error { message := "No file URL provided in job data", responseData := none })
  | some fileUrl =>
    match env.download fileUrl with
    | .error e => ([Step.httpGet fileUrl], .error e)
    | .ok _ =>
      match env.load (tempPath fileUrl) with
      | .error e =>
        ([Step.httpGet fileUrl, Step.fsWrite (tempPath fileUrl),
          Step.pdfLoad (tempPath fileUrl)], .error e)
      | .ok docs =>
        if docs.length = 0 then
          ([Step.httpGet fileUrl, Step.fsWrite (tempPath fileUrl),
            Step.pdfLoad (tempPath fileUrl),
            Step.logError "No text extracted from PDF"], .ok ())
        else
          match upsertChunks env.qdrant (splitDocuments docs) with
          | (tq, .ok _) =>
            ([Step.httpGet fileUrl, Step.fsWrite (tempPath fileUrl),
              Step.pdfLoad (tempPath fileUrl),
              Step.split (splitDocuments docs),
              Step.embedInit embeddingModelName]
              ++ tq ++ [Step.fsUnlink (tempPath fileUrl)], .ok ())
          | (tq, .error e) =>
            ([Step.httpGet fileUrl, Step.fsWrite (tempPath fileUrl),
              Step.pdfLoad (tempPath fileUrl),
              Step.split (splitDocuments docs),
              Step.embedInit embeddingModelName] ++ tq, .error e)

/-- The whole remote-download worker handler: the try block wrapped in the
top-level catch, which logs the error and returns normally, so the job is
always acknowledged to the queue as completed. -/
def processRemoteJob (env : RemoteEnv) (data : RemoteJobData) : List Step × JobOutcome :=
  match remoteBody env data with
  | (tr, .ok _) => (tr, .completed)
  | (tr, .error e) => (tr ++ [Step.logError ("Error processing PDF: " ++ e.message)], .completed)

/-- External outcomes for the local-path worker (src/unnamed/part_002). -/
structure LocalEnv where
  load : String → Except JsError (List Doc)
  qdrant : QdrantEnv

/-- The data of a job as the local-path worker reads it: job.data.path. -/
structure LocalJobData where
  path : String
deriving DecidableEq, Repr

/-- The try block of the local-path worker handler: load the PDF from the
job path, abort with a console.error if zero pages, split, build the
embedding model, and upsert.  No file is ever deleted. -/
def localBody (env : LocalEnv) (data : LocalJobData) : List Step × Except JsError Unit :=
  match env.load data.path with
  | .error e => ([Step.pdfLoad data.path], .error e)
  | .ok docs =>
    if docs.length = 0 then
      ([Step.pdfLoad data.path, Step.logError "No text extracted from PDF"], .ok ())
    else
      match upsertChunks env.qdrant (splitDocuments docs) with
      | (tq, .ok _) =>
        ([Step.pdfLoad data.path, Step.split (splitDocuments docs),
          Step.embedInit embeddingModelName] ++ tq, .ok ())
      | (tq, .error e) =>
        ([Step.pdfLoad data.path, Step.split (splitDocuments docs),
          Step.embedInit embeddingModelName] ++ tq, .error e)

/-- The whole local-path worker handler, with its top-level catch. -/
def processLocalJob (env : LocalEnv) (data : LocalJobData) : List Step × JobOutcome :=
  match localBody env data with
  | (tr, .ok _) => (tr, .completed)
  | (tr, .error e) => (tr ++ [Step.logError ("Error processing PDF: " ++ e.message)], .completed)

/-- External outcomes for the /chat handler: the Qdrant connect, the
retrieval, and the remote model call (system message, user message). -/
structure ChatEnv where
  connect : Except JsError Unit
  retrieve : String → Nat → Except JsError (List Doc)
  llm : String → String → Except JsError String

/-- The SYSTEM_PROMPT template literal of src/unnamed/part_000, with the
retrieved chunk texts joined by newlines in retrieval order spliced in. -/
def systemPrompt000 (docs : List Doc) : String :=
  "\n      You are a helpful AI Agent. Use the provided documents to answer user queries.\n      Do not mention document sources in your answer.\n      Context: "
    ++ String.intercalate "\n" (docs.map Doc.pageContent) ++ "\n    "

/-- The SYSTEM_PROMPT template literal of src/unnamed/part_001, with the
retrieved chunk texts joined by newlines in retrieval order spliced in. -/
def systemPrompt001 (docs : List Doc) : String :=
  "\n      You are a helpful AI Agent. Use the provided documents to answer user queries.dont say in answer about document you get answer be professional\n      Context, also dont answer question not in docs, only you can answer from docs and basic formal replies: "
    ++ String.intercalate "\n" (docs.map Doc.pageContent) ++ "\n    "

/-- The try block of the /chat handler, parameterised by the prompt
builder (the two source variants differ only in the prompt text): build
the embedding model, connect to the collection, retrieve the top k = 2
chunks, build the system prompt, and call the remote model. -/
def chatTry (pr : List Doc → String) (env : ChatEnv) (q : String) :
    List Step × Except JsError HttpResponse :=
  match env.connect with
  | .error e => ([Step.embedInit embeddingModelName, Step.qConnect collectionName], .error e)
  | .ok _ =>
    match env.retrieve q 2 with
    | .error e =>
      ([Step.embedInit embeddingModelName, Step.qConnect collectionName,
        Step.qRetrieve collectionName q 2], .error e)
    | .ok docs =>
      match env.llm (pr docs) q with
      | .error e =>
        ([Step.embedInit embeddingModelName, Step.qConnect collectionName,
          Step.qRetrieve collectionName q 2,
          Step.llmCall chatModelName (pr docs) q], .error e)
      | .ok ans =>
        ([Step.embedInit embeddingModelName, Step.qConnect collectionName,
          Step.qRetrieve collectionName q 2,
          Step.llmCall chatModelName (pr docs) q],
         .ok { status := 200, body := .chatOk ans (docs.map Doc.pageContent) })

/-- error.response?.data || error.message: the upstream payload when
available (and, as in JavaScript, not the empty string), else the message. -/
def jsDetails (e : JsError) : String :=
  match e.responseData with
  | some d => if d = "" then e.message else d
  | none => e.message

/-- The /chat handler: the falsy-query guard (absent or empty query is
rejected with 400 before the try block), then the try block, whose error
is turned into a 500 response carrying `jsDetails` of the error. -/
def chatHandlerWith (pr : List Doc → String) (env : ChatEnv) (query : Option String) :
    List Step × HttpResponse :=
  match query with
  | none => ([], { status := 400, body := .errorBody "Query is required" none })
  | some q =>
    if q = "" then ([], { status := 400, body := .errorBody "Query is required" none })
    else
      match chatTry pr env q with
      | (tr, .ok resp) => (tr, resp)
      | (tr, .error e) =>
        (tr, { status := 500, body := .errorBody "Internal server error" (some (jsDetails e)) })

/-- A multer-parsed uploaded file as the handlers read it. -/
structure UploadFile where
  originalname : String
  path : String
deriving DecidableEq, Repr

/-- External outcomes for the cloud-storage /upload/pdf handler
(src/unnamed/part_000): the Cloudinary upload (returning the secure URL)
and the queue add. -/
structure CloudEnv where
  cloudinaryUpload : String → Except JsError String
  add : Except JsError Unit

/-- The cloud-storage /upload/pdf handler: reject with 400 if no file is
attached, else upload to Cloudinary and enqueue the job inside a try
whose catch yields a 500 response. -/
def uploadCloudHandler (env : CloudEnv) (file : Option UploadFile) : List Step × HttpResponse :=
  match file with
  | none => ([], { status := 400, body := .errorBody "No file uploaded" none })
  | some f =>
    match env.cloudinaryUpload f.path with
    | .error _ =>
      ([Step.cloudUpload f.path], { status := 500, body := .errorBody "Failed to upload file" none })
    | .ok secureUrl =>
      match env.add with
      | .error _ =>
        ([Step.cloudUpload f.path, Step.enqueue queueName "file-ready" f.originalname],
         { status := 500, body := .errorBody "Failed to upload file" none })
      | .ok _ =>
        ([Step.cloudUpload f.path, Step.enqueue queueName "file-ready" f.originalname],
         { status := 200, body := .uploadOk f.originalname secureUrl })

/-- External outcome for the local /upload/pdf handler (src/unnamed/part_001):
the queue add, which is not wrapped in a try there. -/
structure LocalUploadEnv where
  add : Except JsError Unit

/-- The local /upload/pdf handler: reject with 400 if no file is attached,
else enqueue the job; a rejected queue add is unhandled there, so no
response is sent in that case (modelled as `none`). -/
def uploadLocalHandler (env : LocalUploadEnv) (file : Option UploadFile) :
    List Step × Option HttpResponse :=
  match file with
  | none => ([], some { status := 400, body := .errorBody "No file uploaded" none })
  | some f =>
    match env.add with
    | .error _ => ([Step.enqueue queueName "file-ready" f.originalname], none)
    | .ok _ =>
      ([Step.enqueue queueName "file-ready" f.originalname],
       some { status := 200, body := .uploadOk f.originalname f.path })

/-- A Qdrant environment in which every operation succeeds. -/
def okQdrant : QdrantEnv :=
  { fromExistingCollection := .ok ()
    addDocuments := fun _ => .ok ()
    fromDocuments := fun _ => .ok () }

/-- A remote worker environment in which every operation succeeds and the
PDF yields one page reading "hello". -/
def okRemoteEnv : RemoteEnv :=
  { download := fun _ => .ok ()
    load := fun _ => .ok [{ pageContent := "hello" }]
    qdrant := okQdrant }

/-- A remote worker environment whose download always fails. -/
def downFailRemoteEnv : RemoteEnv :=
  { download := fun _ => .error { message := "network down", responseData := none }
    load := fun _ => .ok [{ pageContent := "hello" }]
    qdrant := okQdrant }

/-- A local worker environment in which every operation succeeds and the
PDF yields one page reading "hello". -/
def okLocalEnv : LocalEnv :=
  { load := fun _ => .ok [{ pageContent := "hello" }]
    qdrant := okQdrant }

/-- A local worker environment whose PDF yields zero pages. -/
def emptyLocalEnv : LocalEnv :=
  { load := fun _ => .ok []
    qdrant := okQdrant }

/-- A remote worker environment whose PDF yields zero pages. -/
def emptyRemoteEnv : RemoteEnv :=
  { download := fun _ => .ok ()
    load := fun _ => .ok []
    qdrant := okQdrant }

/-- A local worker environment whose PDF load always fails. -/
def failLocalEnv : LocalEnv :=
  { load := fun _ => .error { message := "bad pdf", responseData := none }
    qdrant := okQdrant }

/-- A chat environment in which every operation succeeds, retrieval
returns two fixed chunks, and the model answers "fine". -/
def okChatEnv : ChatEnv :=
  { connect := .ok ()
    retrieve := fun _ _ => .ok [{ pageContent := "alpha" }, { pageContent := "beta" }]
    llm := fun _ _ => .ok "fine" }

/-! Helper lemmas about the sliding-window splitter. -/

/-- When the text fits in one window (or the configuration is degenerate),
the splitter returns the whole text as the single chunk, for any fuel. -/
lemma slidingChunksAux_one (size overlap fuel : Nat) (s : List Char)
    (h : s.length ≤ size ∨ size ≤ overlap) :
    slidingChunksAux size overlap fuel s = [s] := by
  cases fuel with
  | zero => rfl
  | succ n => simp only [slidingChunksAux, if_pos h]

/-- In the stepping case the splitter emits the first window and recurses
one stride further. -/
lemma slidingChunksAux_cons (size overlap fuel : Nat) (s : List Char)
    (h1 : size < s.length) (h2 : overlap < size) :
    slidingChunksAux size overlap (fuel + 1) s
      = s.take size :: slidingChunksAux size overlap fuel (s.drop (size - overlap)) := by
  simp only [slidingChunksAux]
  rw [if_neg]
  omega

/-- If the splitter produced at least two chunks, the text was longer than
one window and the configuration non-degenerate. -/
lemma slidingChunksAux_two (size overlap fuel : Nat) (s : List Char)
    (h : 1 < (slidingChunksAux size overlap fuel s).length) :
    size < s.length ∧ overlap < size := by
  by_contra hc
  push_neg at hc
  have hone : s.length ≤ size ∨ size ≤ overlap := by omega
  rw [slidingChunksAux_one size overlap fuel s hone] at h
  simp at h

/-- Characterization of the splitter output: with enough fuel, chunk `i`
is the `size`-character window starting `(size - overlap) * i` characters
into the text. -/
lemma slidingChunksAux_getElem (size overlap : Nat) (hov : overlap < size) :
    ∀ (fuel : Nat) (s : List Char), s.length ≤ fuel * (size - overlap) + size →
    ∀ i, i < (slidingChunksAux size overlap fuel s).length →
      (slidingChunksAux size overlap fuel s)[i]?
        = some ((s.drop ((size - overlap) * i)).take size) := by
  intro fuel
  induction fuel with
  | zero =>
    intro s hs i h
    simp only [slidingChunksAux, List.length_singleton] at h
    have hi : i = 0 := by omega
    subst hi
    have hs' : s.length ≤ size := by simpa using hs
    simp [slidingChunksAux, List.take_of_length_le hs']
  | succ n ih =>
    intro s hs i h
    by_cases hc : s.length ≤ size ∨ size ≤ overlap
    · rw [slidingChunksAux_one size overlap (n + 1) s hc] at h ⊢
      simp only [List.length_singleton] at h
      have hi : i = 0 := by omega
      subst hi
      have hs' : s.length ≤ size := by
        rcases hc with h1 | h2
        · exact h1
        · omega
      simp [List.take_of_length_le hs']
    · push_neg at hc
      obtain ⟨h1, h2⟩ := hc
      rw [slidingChunksAux_cons size overlap n s h1 h2] at h ⊢
      cases i with
      | zero => simp
      | succ j =>
        simp only [List.getElem?_cons_succ]
        simp only [List.length_cons, Nat.succ_lt_succ_iff] at h
        have hinv : (s.drop (size - overlap)).length ≤ n * (size - overlap) + size := by
          rw [List.length_drop]
          have hmul : (n + 1) * (size - overlap) = n * (size - overlap) + (size - overlap) :=
            Nat.succ_mul n (size - overlap)
          rw [hmul] at hs
          set t := n * (size - overlap) with ht
          omega
        rw [ih (s.drop (size - overlap)) hinv j h]
        rw [List.drop_drop]
        have harith : size - overlap + (size - overlap) * j = (size - overlap) * (j + 1) := by
          rw [Nat.mul_succ, Nat.add_comm]
        rw [harith]

/-- Every chunk except possibly the last has exactly the window size. -/
lemma slidingChunksAux_full (size overlap : Nat) :
    ∀ (fuel : Nat) (s : List Char) (i : Nat),
      i + 1 < (slidingChunksAux size overlap fuel s).length →
      ∃ c, (slidingChunksAux size overlap fuel s)[i]? = some c ∧ c.length = size := by
  intro fuel
  induction fuel with
  | zero =>
    intro s i h
    simp only [slidingChunksAux, List.length_singleton] at h
    omega
  | succ n ih =>
    intro s i h
    by_cases hc : s.length ≤ size ∨ size ≤ overlap
    · rw [slidingChunksAux_one size overlap (n + 1) s hc] at h
      simp only [List.length_singleton] at h
      omega
    · push_neg at hc
      obtain ⟨h1, h2⟩ := hc
      rw [slidingChunksAux_cons size overlap n s h1 h2] at h ⊢
      cases i with
      | zero =>
        refine ⟨s.take size, by simp, ?_⟩
        rw [List.length_take]
        omega
      | succ j =>
        simp only [List.getElem?_cons_succ]
        simp only [List.length_cons, Nat.succ_lt_succ_iff] at h
        exact ih (s.drop (size - overlap)) j h

/-- Every chunk of a text longer than the overlap is itself longer than
the overlap (so the overlap region always has its full length). -/
lemma slidingChunksAux_gt (size overlap : Nat) (hov : overlap < size) :
    ∀ (fuel : Nat) (s : List Char), overlap < s.length →
    ∀ (i : Nat), i < (slidingChunksAux size overlap fuel s).length →
      ∃ c, (slidingChunksAux size overlap fuel s)[i]? = some c ∧ overlap < c.length := by
  intro fuel
  induction fuel with
  | zero =>
    intro s hs i h
    simp only [slidingChunksAux, List.length_singleton] at h
    have hi : i = 0 := by omega
    subst hi
    exact ⟨s, by simp [slidingChunksAux], hs⟩
  | succ n ih =>
    intro s hs i h
    by_cases hc : s.length ≤ size ∨ size ≤ overlap
    · rw [slidingChunksAux_one size overlap (n + 1) s hc] at h ⊢
      simp only [List.length_singleton] at h
      have hi : i = 0 := by omega
      subst hi
      exact ⟨s, by simp, hs⟩
    · push_neg at hc
      obtain ⟨h1, h2⟩ := hc
      rw [slidingChunksAux_cons size overlap n s h1 h2] at h ⊢
      cases i with
      | zero =>
        refine ⟨s.take size, by simp, ?_⟩
        rw [List.length_take]
        omega
      | succ j =>
        simp only [List.getElem?_cons_succ]
        simp only [List.length_cons, Nat.succ_lt_succ_iff] at h
        have hs' : overlap < (s.drop (size - overlap)).length := by
          rw [List.length_drop]
          omega
        exact ih (s.drop (size - overlap)) hs' j h

/-- `workerChunks` with its fuel supplied satisfies the window
characterization. -/
lemma workerChunks_getElem (s : List Char) (i : Nat) (h : i < (workerChunks s).length) :
    (workerChunks s)[i]? = some ((s.drop (800 * i)).take 1000) := by
  have hfuel : s.length ≤ s.length * (1000 - 200) + 1000 := by
    have h1 : s.length * 1 ≤ s.length * (1000 - 200) := by
      apply Nat.mul_le_mul_left
      omega
    rw [Nat.mul_one] at h1
    omega
  have := slidingChunksAux_getElem 1000 200 (by omega) s.length s hfuel i h
  simpa using this

/-- Every chunk except possibly the last has exactly the target size. -/
lemma workerChunks_full (s : List Char) (i : Nat) (h : i + 1 < (workerChunks s).length) :
    ∃ c, (workerChunks s)[i]? = some c ∧ c.length = 1000 :=
  slidingChunksAux_full 1000 200 s.length s i h

/-- When the text is longer than the overlap, every chunk is too. -/
lemma workerChunks_gt (s : List Char) (i : Nat) (hs : 200 < s.length)
    (h : i < (workerChunks s).length) :
    ∃ c, (workerChunks s)[i]? = some c ∧ 200 < c.length :=
  slidingChunksAux_gt 1000 200 (by omega) s.length s hs i h

/-- At least two chunks force the text past one window. -/
lemma workerChunks_two (s : List Char) (h : 1 < (workerChunks s).length) :
    1000 < s.length :=
  (slidingChunksAux_two 1000 200 s.length s h).1

/-- C2: for every extracted text segment, splitting produces chunks by a
fixed sliding window of target size 1000 characters (`splitterConfig`, the
worker configuration); whenever chunks `i` and `i + 1` both exist, chunk
`i` has exactly 1000 characters, the last 200 characters of chunk `i`
equal the first 200 characters of chunk `i + 1` (so consecutive chunks
overlap by exactly 200 characters, the final chunk alone possibly being
short), and each chunk is exactly the window of the source text starting
800 characters after the previous one, so the split is deterministic,
position-based rather than sentence-aware, and chunk order mirrors source
order. -/
theorem chunks_window_c2 (s : List Char) (i : Nat) (ci ci1 : List Char)
    (hci : (workerChunks s)[i]? = some ci) (hci1 : (workerChunks s)[i + 1]? = some ci1) :
    ci.length = 1000
    ∧ ci.drop 800 = ci1.take 200
    ∧ (ci1.take 200).length = 200
    ∧ ci = (s.drop (800 * i)).take 1000
    ∧ ci1 = (s.drop (800 * (i + 1))).take 1000 := by
  have hlt1 : i + 1 < (workerChunks s).length := by
    by_contra hn
    push_neg at hn
    rw [List.getElem?_eq_none hn] at hci1
    simp at hci1
  have hlti : i < (workerChunks s).length := Nat.lt_of_succ_lt hlt1
  have hwi := workerChunks_getElem s i hlti
  have hwi1 := workerChunks_getElem s (i + 1) hlt1
  rw [hci] at hwi
  rw [hci1] at hwi1
  have hei : ci = (s.drop (800 * i)).take 1000 := Option.some.inj hwi
  have hei1 : ci1 = (s.drop (800 * (i + 1))).take 1000 := Option.some.inj hwi1
  subst hei
  subst hei1
  refine ⟨?_, ?_, ?_, rfl, rfl⟩
  · obtain ⟨c, hc, hlen⟩ := workerChunks_full s i hlt1
    rw [workerChunks_getElem s i hlti] at hc
    rw [← Option.some.inj hc] at hlen
    exact hlen
  · rw [List.drop_take, List.drop_drop, List.take_take, Nat.mul_succ]
    norm_num
  · obtain ⟨c, hc, hgt⟩ := workerChunks_gt s (i + 1)
      (by have := workerChunks_two s (by omega); omega) hlt1
    rw [workerChunks_getElem s (i + 1) hlt1] at hc
    rw [← Option.some.inj hc] at hgt
    rw [List.length_take]
    omega

set_option maxRecDepth 100000 in
/-- Witness for C2 at a concrete 1001-character text: two chunks, the
first of exactly 1000 characters whose last 200 characters open the
second chunk. -/
theorem chunks_window_c2_witness :
    (workerChunks (List.replicate 1001 'a'))[0]? = some (List.replicate 1000 'a')
    ∧ (workerChunks (List.replicate 1001 'a'))[1]? = some (List.replicate 201 'a')
    ∧ (List.replicate 1000 'a' : List Char).length = 1000
    ∧ (List.replicate 1000 'a' : List Char).drop 800 = (List.replicate 201 'a' : List Char).take 200 := by
  have h1 : (workerChunks (List.replicate 1001 'a'))[0]? = some (List.replicate 1000 'a') := by
    decide
  have h2 : (workerChunks (List.replicate 1001 'a'))[1]? = some (List.replicate 201 'a') := by
    decide
  have hm := chunks_window_c2 (List.replicate 1001 'a') 0
    (List.replicate 1000 'a') (List.replicate 201 'a') h1 h2
  exact ⟨h1, h2, hm.1, hm.2.1⟩

/-- C1: for every ingest job whose chunks are ready (the URL resolved, the
download succeeded, and extraction produced at least one segment), the
Qdrant interaction of the worker is exactly the append-then-fallback
routine `upsertChunks` on the `pdf-docs` collection: its first action is
the connect of the append attempt (so no existence check precedes it),
and the create call, carrying the chunks as initial contents, occurs in
the trace if and only if the append attempt (connect plus addDocuments)
fails. -/
theorem upsert_fallback_c1 (env : RemoteEnv) (data : RemoteJobData) (u : String)
    (docs : List Doc)
    (hu : data.url = some u) (hdl : env.download u = .ok ())
    (hld : env.load (tempPath u) = .ok docs) (hne : docs ≠ []) :
    ((processRemoteJob env data).1.filter isQdrantStep
        = (upsertChunks env.qdrant (splitDocuments docs)).1)
    ∧ ((processRemoteJob env data).1.filter isQdrantStep).head?
        = some (Step.qConnect collectionName)
    ∧ (Step.qCreate collectionName (splitDocuments docs) ∈ (processRemoteJob env data).1
        ↔ appendAttemptFails env.qdrant (splitDocuments docs) = true) := by
  have hne' : ¬(docs.length = 0) := by simpa [List.length_eq_zero] using hne
  rcases hfe : env.qdrant.fromExistingCollection with efe | vfe <;>
    rcases hadd : env.qdrant.addDocuments (splitDocuments docs) with eadd | vadd <;>
      rcases hcre : env.qdrant.fromDocuments (splitDocuments docs) with ecre | vcre <;>
        simp [processRemoteJob, remoteBody, upsertChunks, appendAttemptFails, isQdrantStep,
          hu, hdl, hld, hne', hfe, hadd, hcre]

/-- Witness for C1 at a concrete all-success environment: the worker
performs connect and append only, and no create call appears. -/
theorem upsert_fallback_c1_witness :
    (({ url := some "http://h/x.pdf" } : RemoteJobData).url = some "http://h/x.pdf"
      ∧ okRemoteEnv.download "http://h/x.pdf" = .ok ()
      ∧ okRemoteEnv.load (tempPath "http://h/x.pdf") = .ok [{ pageContent := "hello" }])
    ∧ ((processRemoteJob okRemoteEnv { url := some "http://h/x.pdf" }).1.filter isQdrantStep
        = (upsertChunks okRemoteEnv.qdrant (splitDocuments [{ pageContent := "hello" }])).1)
    ∧ ((processRemoteJob okRemoteEnv { url := some "http://h/x.pdf" }).1.filter isQdrantStep).head?
        = some (Step.qConnect collectionName)
    ∧ (Step.qCreate collectionName (splitDocuments [{ pageContent := "hello" }])
        ∈ (processRemoteJob okRemoteEnv { url := some "http://h/x.pdf" }).1
        ↔ appendAttemptFails okRemoteEnv.qdrant (splitDocuments [{ pageContent := "hello" }]) = true) := by
  refine ⟨⟨rfl, rfl, rfl⟩, ?_⟩
  exact upsert_fallback_c1 okRemoteEnv { url := some "http://h/x.pdf" } "http://h/x.pdf"
    [{ pageContent := "hello" }] rfl rfl rfl (by simp)

/-- C3: for every ingest job whose PDF extraction yields zero text
segments, the worker (both the remote-download and the local-path
variant) logs the zero-extraction error and returns: the whole trace is
the steps up to extraction plus the console.error, so no chunking,
embedding or index write happens, and the handler returns normally, so
the job completes and is not re-queued. -/
theorem zero_docs_abort_c3 (envR : RemoteEnv) (dataR : RemoteJobData) (u : String)
    (envL : LocalEnv) (dataL : LocalJobData)
    (hu : dataR.url = some u) (hdl : envR.download u = .ok ())
    (hldR : envR.load (tempPath u) = .ok [])
    (hldL : envL.load dataL.path = .ok []) :
    processRemoteJob envR dataR
      = ([Step.httpGet u, Step.fsWrite (tempPath u), Step.pdfLoad (tempPath u),
          Step.logError "No text extracted from PDF"], JobOutcome.completed)
    ∧ processLocalJob envL dataL
      = ([Step.pdfLoad dataL.path, Step.logError "No text extracted from PDF"],
         JobOutcome.completed) := by
  constructor
  · simp [processRemoteJob, remoteBody, hu, hdl, hldR]
  · simp [processLocalJob, localBody, hldL]

/-- Witness for C3 at concrete zero-page environments. -/
theorem zero_docs_abort_c3_witness :
    (emptyRemoteEnv.load (tempPath "http://h/x.pdf") = .ok []
      ∧ emptyLocalEnv.load "uploads/a.pdf" = .ok [])
    ∧ processRemoteJob emptyRemoteEnv { url := some "http://h/x.pdf" }
      = ([Step.httpGet "http://h/x.pdf", Step.fsWrite (tempPath "http://h/x.pdf"),
          Step.pdfLoad (tempPath "http://h/x.pdf"),
          Step.logError "No text extracted from PDF"], JobOutcome.completed)
    ∧ processLocalJob emptyLocalEnv { path := "uploads/a.pdf" }
      = ([Step.pdfLoad "uploads/a.pdf", Step.logError "No text extracted from PDF"],
         JobOutcome.completed) := by
  refine ⟨⟨rfl, rfl⟩, ?_, ?_⟩
  · exact (zero_docs_abort_c3 emptyRemoteEnv { url := some "http://h/x.pdf" } "http://h/x.pdf"
      emptyLocalEnv { path := "uploads/a.pdf" } rfl rfl rfl rfl).1
  · exact (zero_docs_abort_c3 emptyRemoteEnv { url := some "http://h/x.pdf" } "http://h/x.pdf"
      emptyLocalEnv { path := "uploads/a.pdf" } rfl rfl rfl rfl).2

/-- C4 counterexample: a concrete job whose download raises an exception.
The try block surfaces the error, yet the handler outcome — what the
queue sees — is `completed`, an acknowledged completion, not a failure,
because the top-level catch swallows the exception and the handler
returns normally.  So a failed job is never surfaced to the queue as a
failure and the queue retry/backoff policy can never engage. -/
theorem swallowed_failure_c4_counterexample :
    (remoteBody downFailRemoteEnv { url := some "http://h/x.pdf" }).2
      = .error { message := "network down", responseData := none }
    ∧ (processRemoteJob downFailRemoteEnv { url := some "http://h/x.pdf" }).2
      = JobOutcome.completed := by
  exact ⟨rfl, rfl⟩

/-- C4 (amended): for every ingest job that raises an exception during
processing, the exception is caught at the top level and logged (the
trace is the try-block trace followed by the console.error of the
message), the job is abandoned with no partial-state rollback, and the
handler returns normally, so the job is surfaced to the queue as an
acknowledged completion — the queue retry/backoff policy is never
invoked.  Both worker variants behave this way. -/
theorem catch_swallows_c4 (envR : RemoteEnv) (dataR : RemoteJobData) (eR : JsError)
    (envL : LocalEnv) (dataL : LocalJobData) (eL : JsError)
    (hR : (remoteBody envR dataR).2 = .error eR)
    (hL : (localBody envL dataL).2 = .error eL) :
    processRemoteJob envR dataR
      = ((remoteBody envR dataR).1
          ++ [Step.logError ("Error processing PDF: " ++ eR.message)], JobOutcome.completed)
    ∧ processLocalJob envL dataL
      = ((localBody envL dataL).1
          ++ [Step.logError ("Error processing PDF: " ++ eL.message)], JobOutcome.completed) := by
  constructor
  · rcases hb : remoteBody envR dataR with ⟨tr, r⟩
    rw [hb] at hR
    simp only at hR
    subst hR
    simp [processRemoteJob, hb]
  · rcases hb : localBody envL dataL with ⟨tr, r⟩
    rw [hb] at hL
    simp only at hL
    subst hL
    simp [processLocalJob, hb]

/-- Witness for the amended C4 at concrete failing environments. -/
theorem catch_swallows_c4_witness :
    ((remoteBody downFailRemoteEnv { url := some "http://h/x.pdf" }).2
        = .error { message := "network down", responseData := none }
      ∧ (localBody failLocalEnv { path := "uploads/a.pdf" }).2
        = .error { message := "bad pdf", responseData := none })
    ∧ processRemoteJob downFailRemoteEnv { url := some "http://h/x.pdf" }
      = ((remoteBody downFailRemoteEnv { url := some "http://h/x.pdf" }).1
          ++ [Step.logError ("Error processing PDF: " ++ "network down")], JobOutcome.completed)
    ∧ processLocalJob failLocalEnv { path := "uploads/a.pdf" }
      = ((localBody failLocalEnv { path := "uploads/a.pdf" }).1
          ++ [Step.logError ("Error processing PDF: " ++ "bad pdf")], JobOutcome.completed) := by
  refine ⟨⟨rfl, rfl⟩, ?_, ?_⟩
  · exact (catch_swallows_c4 downFailRemoteEnv { url := some "http://h/x.pdf" }
      { message := "network down", responseData := none }
      failLocalEnv { path := "uploads/a.pdf" }
      { message := "bad pdf", responseData := none } rfl rfl).1
  · exact (catch_swallows_c4 downFailRemoteEnv { url := some "http://h/x.pdf" }
      { message := "network down", responseData := none }
      failLocalEnv { path := "uploads/a.pdf" }
      { message := "bad pdf", responseData := none } rfl rfl).2

/-- C10: for every job dequeued by the remote-download worker whose data
lacks a url field, the guard throws before any effect: the whole trace is
the single console.error of the caught message — no network download, no
temp-file write, no index write — and the handler returns normally, so
the job is abandoned with no state change. -/
theorem missing_url_c10 (env : RemoteEnv) (data : RemoteJobData) (h : data.url = none) :
    processRemoteJob env data
      = ([Step.logError "Error processing PDF: No file URL provided in job data"],
         JobOutcome.completed) := by
  rcases data with ⟨url⟩
  simp only at h
  subst h
  rfl

/-- Witness for C10 at a concrete url-less job. -/
theorem missing_url_c10_witness :
    (({ url := none } : RemoteJobData).url = none)
    ∧ processRemoteJob okRemoteEnv { url := none }
      = ([Step.logError "Error processing PDF: No file URL provided in job data"],
         JobOutcome.completed) :=
  ⟨rfl, missing_url_c10 okRemoteEnv { url := none } rfl⟩

/-- C7: for every /chat request whose query is absent or the empty string
(both falsy in JavaScript), either handler variant replies 400 with an
empty effect trace: no embedding-model instantiation, no Qdrant connect
or retrieval, and no remote model call happen. -/
theorem chat_guard_c7 (pr : List Doc → String) (env : ChatEnv) :
    chatHandlerWith pr env none
      = ([], { status := 400, body := .errorBody "Query is required" none })
    ∧ chatHandlerWith pr env (some "")
      = ([], { status := 400, body := .errorBody "Query is required" none }) := by
  exact ⟨rfl, rfl⟩

/-- C8: for every /upload/pdf request with no file attached, both handler
variants reply 400 with an empty effect trace: no queue interaction and,
in the cloud-storage variant, no Cloudinary upload happen. -/
theorem upload_guard_c8 (envC : CloudEnv) (envL : LocalUploadEnv) :
    uploadCloudHandler envC none
      = ([], { status := 400, body := .errorBody "No file uploaded" none })
    ∧ uploadLocalHandler envL none
      = ([], some { status := 400, body := .errorBody "No file uploaded" none }) := by
  exact ⟨rfl, rfl⟩

/-- C6: for every /chat request with a non-empty query, either the
connect, the k = 2 retrieval and the model call all succeed and the
response is 200 carrying the model answer together with the raw texts of
the retrieved chunks (the retrieval step in the trace uses k = 2), or
some step of the try block fails and the response is 500 with the
upstream error payload when available (`jsDetails`).  This holds for both
handler variants since they differ only in the prompt builder. -/
theorem chat_result_c6 (pr : List Doc → String) (env : ChatEnv) (q : String) (hq : q ≠ "") :
    (∃ docs ans,
        env.retrieve q 2 = .ok docs ∧ env.llm (pr docs) q = .ok ans
        ∧ chatHandlerWith pr env (some q)
          = ((chatTry pr env q).1,
             { status := 200, body := .chatOk ans (docs.map Doc.pageContent) })
        ∧ Step.qRetrieve collectionName q 2 ∈ (chatTry pr env q).1)
    ∨ (∃ e, (chatTry pr env q).2 = .error e
        ∧ chatHandlerWith pr env (some q)
          = ((chatTry pr env q).1,
             { status := 500, body := .errorBody "Internal server error" (some (jsDetails e)) })) := by
  rcases hc : env.connect with ec | vc
  · right
    refine ⟨ec, ?_, ?_⟩ <;> simp [chatHandlerWith, chatTry, hq, hc]
  · rcases hr : env.retrieve q 2 with er | docs
    · right
      refine ⟨er, ?_, ?_⟩ <;> simp [chatHandlerWith, chatTry, hq, hc, hr]
    · rcases hl : env.llm (pr docs) q with el | ans
      · right
        refine ⟨el, ?_, ?_⟩ <;> simp [chatHandlerWith, chatTry, hq, hc, hr, hl]
      · left
        refine ⟨docs, ans, rfl, hl, ?_, ?_⟩ <;>
          simp [chatHandlerWith, chatTry, hq, hc, hr, hl]

/-- Witness for C6 at a concrete all-success chat environment. -/
theorem chat_result_c6_witness :
    (∃ docs ans,
        okChatEnv.retrieve "hi" 2 = .ok docs
        ∧ okChatEnv.llm (systemPrompt000 docs) "hi" = .ok ans
        ∧ chatHandlerWith systemPrompt000 okChatEnv (some "hi")
          = ((chatTry systemPrompt000 okChatEnv "hi").1,
             { status := 200, body := .chatOk ans (docs.map Doc.pageContent) })
        ∧ Step.qRetrieve collectionName "hi" 2 ∈ (chatTry systemPrompt000 okChatEnv "hi").1)
    ∨ (∃ e, (chatTry systemPrompt000 okChatEnv "hi").2 = .error e
        ∧ chatHandlerWith systemPrompt000 okChatEnv (some "hi")
          = ((chatTry systemPrompt000 okChatEnv "hi").1,
             { status := 500,
               body := .errorBody "Internal server error" (some (jsDetails e)) })) :=
  chat_result_c6 systemPrompt000 okChatEnv "hi" (by decide)

/-- C9: for every /chat request that reaches the model call (non-empty
query, connect and retrieval succeeded), the single system instruction
sent to the model is the fixed prompt of the respective source variant,
which embeds the retrieved chunk texts verbatim, joined by newlines in
retrieval order, after instruction text telling the model to answer from
the provided documents and not mention them. -/
theorem chat_prompt_c9 (env : ChatEnv) (q : String) (docs : List Doc)
    (hq : q ≠ "") (hc : env.connect = .ok ())
    (hr : env.retrieve q 2 = .ok docs) :
    Step.llmCall chatModelName (systemPrompt000 docs) q
      ∈ (chatHandlerWith systemPrompt000 env (some q)).1
    ∧ Step.llmCall chatModelName (systemPrompt001 docs) q
      ∈ (chatHandlerWith systemPrompt001 env (some q)).1
    ∧ systemPrompt000 docs
      = "\n      You are a helpful AI Agent. Use the provided documents to answer user queries.\n      Do not mention document sources in your answer.\n      Context: "
        ++ String.intercalate "\n" (docs.map Doc.pageContent) ++ "\n    "
    ∧ systemPrompt001 docs
      = "\n      You are a helpful AI Agent. Use the provided documents to answer user queries.dont say in answer about document you get answer be professional\n      Context, also dont answer question not in docs, only you can answer from docs and basic formal replies: "
        ++ String.intercalate "\n" (docs.map Doc.pageContent) ++ "\n    " := by
  refine ⟨?_, ?_, rfl, rfl⟩
  · rcases hl : env.llm (systemPrompt000 docs) q with el | ans <;>
      simp [chatHandlerWith, chatTry, hq, hc, hr, hl]
  · rcases hl : env.llm (systemPrompt001 docs) q with el | ans <;>
      simp [chatHandlerWith, chatTry, hq, hc, hr, hl]

/-- Witness for C9 at a concrete chat environment with two retrieved
chunks. -/
theorem chat_prompt_c9_witness :
    (okChatEnv.connect = .ok ()
      ∧ okChatEnv.retrieve "hi" 2
        = .ok [{ pageContent := "alpha" }, { pageContent := "beta" }])
    ∧ Step.llmCall chatModelName
        (systemPrompt000 [{ pageContent := "alpha" }, { pageContent := "beta" }]) "hi"
      ∈ (chatHandlerWith systemPrompt000 okChatEnv (some "hi")).1
    ∧ systemPrompt000 [{ pageContent := "alpha" }, { pageContent := "beta" }]
      = "\n      You are a helpful AI Agent. Use the provided documents to answer user queries.\n      Do not mention document sources in your answer.\n      Context: "
        ++ String.intercalate "\n" ["alpha", "beta"] ++ "\n    " := by
  have hm := chat_prompt_c9 okChatEnv "hi" [{ pageContent := "alpha" }, { pageContent := "beta" }]
    (by decide) rfl rfl
  exact ⟨⟨rfl, rfl⟩, hm.1, hm.2.2.1⟩

/-- The Qdrant routine itself never touches the filesystem. -/
lemma upsert_no_unlink (env : QdrantEnv) (ds : List Doc) (p : String) :
    Step.fsUnlink p ∉ (upsertChunks env ds).1 := by
  rcases hfe : env.fromExistingCollection with e | v <;>
    rcases hadd : env.addDocuments ds with e2 | v2 <;>
      rcases hcre : env.fromDocuments ds with e3 | v3 <;>
        simp [upsertChunks, hfe, hadd, hcre]

/-- C5: the remote-download worker deletes exactly the temporary local
file, and does so exactly on successful indexing: an fsUnlink of `p`
appears in its trace if and only if the job carried a URL `u`, `p` is the
temp path of `u`, the download and extraction succeeded with at least one
segment, and the upsert succeeded.  The local-path worker never deletes
any file, so uploaded files are otherwise left on disk. -/
theorem temp_file_cleanup_c5 (envR : RemoteEnv) (dataR : RemoteJobData)
    (envL : LocalEnv) (dataL : LocalJobData) (p : String) :
    (Step.fsUnlink p ∈ (processRemoteJob envR dataR).1
      ↔ ∃ u docs, dataR.url = some u ∧ p = tempPath u
          ∧ envR.download u = .ok () ∧ envR.load (tempPath u) = .ok docs ∧ docs ≠ []
          ∧ (upsertChunks envR.qdrant (splitDocuments docs)).2 = .ok ())
    ∧ Step.fsUnlink p ∉ (processLocalJob envL dataL).1 := by
  constructor
  · rcases dataR with ⟨url⟩
    rcases url with _ | u
    · simp [processRemoteJob, remoteBody]
    · rcases hdl : envR.download u with e | ⟨⟩
      · simp [processRemoteJob, remoteBody, hdl]
      · rcases hld : envR.load (tempPath u) with e | docs
        · simp [processRemoteJob, remoteBody, hdl, hld]
        · rcases docs with _ | ⟨d, ds⟩
          · simp [processRemoteJob, remoteBody, hdl, hld]
          · rcases hup : upsertChunks envR.qdrant (splitDocuments (d :: ds)) with ⟨tq, r⟩
            rcases r with e | ⟨⟩ <;>
            · have hnu := upsert_no_unlink envR.qdrant (splitDocuments (d :: ds)) p
              rw [hup] at hnu
              simp only at hnu
              simp [processRemoteJob, remoteBody, hdl, hld, hup, hnu]
  · rcases hld : envL.load dataL.path with e | docs
    · simp [processLocalJob, localBody, hld]
    · rcases docs with _ | ⟨d, ds⟩
      · simp [processLocalJob, localBody, hld]
      · rcases hup : upsertChunks envL.qdrant (splitDocuments (d :: ds)) with ⟨tq, r⟩
        rcases r with e | ⟨⟩ <;>
        · have hnu := upsert_no_unlink envL.qdrant (splitDocuments (d :: ds)) p
          rw [hup] at hnu
          simp only at hnu
          simp [processLocalJob, localBody, hld, hup, hnu]
